import Mathlib

/-!
Verification of `pyreisejl/utility/call.py` from REISE.jl.

The script is command-line glue: it resolves run parameters (possibly from a
scenario registry), validates them, converts input data, launches a simulation
through a pluggable launcher, records status and runtime in external tracking
files, and optionally extracts results.

We embed the script shallowly: Python argparse values become `PyVal` (capturing
Python truthiness), external collaborators become an oracle record `Ext` whose
calls return `Except Err`, and `main` becomes `mainRun`, a function that
returns the final outcome together with the trace of external calls made, in
order.  The `if __name__ == "__main__"` block becomes `main_entry`.
-/

set_option autoImplicit false

namespace Call

/-- A Python value as it can appear in an argparse namespace field, with the
constructors needed to express Python truthiness (`None`, strings, ints,
booleans, lists). -/
inductive PyVal where
  | none
  | str (s : String)
  | int (n : Int)
  | bool (b : Bool)
  | list (l : List PyVal)

/-- Python truthiness: `None`, `""`, `0`, `False` and `[]` are falsy. -/
def PyVal.truthy : PyVal → Bool
  | .none => false
  | .str s => !s.isEmpty
  | .int n => n != 0
  | .bool b => b
  | .list l => !l.isEmpty

/-- The exceptions that can arise in the script: the custom
`WrongNumberOfArguments` raised by `_ensure_required_args`, and generic
exceptions raised by external collaborators. -/
inductive Err where
  | wrongNumberOfArguments (msg : String)
  | runtimeErr (msg : String)
deriving DecidableEq

/-- The parsed command-line arguments (argparse namespace) used by `main`. -/
structure Args where
  scenario_id : PyVal
  start_date : PyVal
  end_date : PyVal
  interval : PyVal
  input_dir : PyVal
  output_dir : PyVal
  solver : PyVal
  threads : PyVal
  julia_env : PyVal
  extract_data : PyVal
  keep_matlab : PyVal

/-- One external call made by the script, with the arguments it was given.
`printExn` records the `print(ex)` in the top-level handler. -/
inductive Event where
  | getScenario (id : PyVal)
  | pklToCsv (input_dir : PyVal)
  | insertInFile (file : String) (id : PyVal) (column : String) (value : String)
  | getLauncher (solver : PyVal)
  | launchScenario (start_date end_date interval input_dir threads julia_env : PyVal)
  | extractScenario (input_dir start_date end_date scenario_id output_dir keep_mat : PyVal)
  | printExn (e : Err)

/-- The external collaborators of `call.py` (registry, converter, tracking
file, launcher factory, launcher, extractor) and the configuration constants
from `const`, modelled as an oracle: each call either succeeds with a value or
raises. -/
structure Ext where
  OUTPUT_DIR : PyVal
  EXECUTE_LIST : String
  SCENARIO_LIST : String
  get_scenario : PyVal → Except Err (PyVal × PyVal × PyVal × PyVal)
  pkl_to_csv : PyVal → Except Err Unit
  insert_in_file : String → PyVal → String → String → Except Err Unit
  get_launcher : PyVal → Except Err Unit
  launch_scenario : PyVal → PyVal → PyVal → PyVal → PyVal → PyVal → Except Err Nat
  extract_scenario : PyVal → PyVal → PyVal → PyVal → PyVal → PyVal → Except Err Unit

/-- Sequencing of trace-producing fallible steps: on failure the trace so far
is kept and the rest is skipped (a raised exception propagates). -/
def seqE {α β : Type} (x : Except Err α × List Event) (f : α → Except Err β × List Event) :
    Except Err β × List Event :=
  match x with
  | (.error e, tr) => (.error e, tr)
  | (.ok a, tr) => ((f a).1, tr ++ (f a).2)

/-- A single external call: records its event and returns the oracle's answer. -/
def callE {α : Type} (ev : Event) (r : Except Err α) : Except Err α × List Event :=
  (r, [ev])

/-- The error message of `_ensure_required_args`. -/
def errRequired : String :=
  "The following arguments are required: start-date, end-date, interval, input-dir"

/-- `_ensure_required_args(args)`: raises `WrongNumberOfArguments` unless
`args.start_date and args.end_date and args.interval and args.input_dir`
is truthy. -/
def ensure_required_args (a : Args) : Except Err Unit :=
  if !(a.start_date.truthy && a.end_date.truthy && a.interval.truthy && a.input_dir.truthy) then
    .error (.wrongNumberOfArguments errRequired)
  else
    .ok ()

/-- The field overwrites done by `main` when a scenario id is given:
`start_date`, `end_date`, `interval`, `input_dir` are set from the tuple
returned by `get_scenario`, in that order, and `output_dir` is set to
`const.OUTPUT_DIR`. -/
def apply_scenario (ext : Ext) (a : Args) (s : PyVal × PyVal × PyVal × PyVal) : Args :=
  { a with
    start_date := s.1
    end_date := s.2.1
    interval := s.2.2.1
    input_dir := s.2.2.2
    output_dir := ext.OUTPUT_DIR }

/-- The scenario-resolution block at the top of `main`: when
`args.scenario_id` is truthy, call `get_scenario` and overwrite the fields;
otherwise the arguments pass through unchanged. -/
def resolve_args (ext : Ext) (a : Args) : Except Err Args × List Event :=
  if a.scenario_id.truthy then
    ((ext.get_scenario a.scenario_id).map (apply_scenario ext a), [.getScenario a.scenario_id])
  else
    (.ok a, [])

/-- Modelled from the spec: `sec2hms` from `pyreisejl.utility.helpers` is not
under `src/`; the spec describes the recorded runtime as hours:minutes with
seconds discarded, so `sec2hms` splits a number of seconds into
(hours, minutes, seconds). -/
def sec2hms (sec : Nat) : Nat × Nat × Nat :=
  (sec / 3600, sec % 3600 / 60, sec % 60)

/-- The Python format `"%d:%02d" % (hours, minutes)`: hours unpadded, minutes
zero-padded to two digits. -/
def format_hm (h m : Nat) : String :=
  toString h ++ ":" ++ (if m < 10 then "0" ++ toString m else toString m)

/-- The runtime string `_record_scenario` writes for a given runtime in
seconds: hours and zero-padded minutes, seconds discarded. -/
def runtime_string (runtime : Nat) : String :=
  format_hm (sec2hms runtime).1 (sec2hms runtime).2.1

/-- `_record_scenario(scenario_id, runtime)`: writes status "finished" into
`EXECUTE_LIST`, then the formatted runtime into `SCENARIO_LIST`. -/
def record_scenario (ext : Ext) (sid : PyVal) (runtime : Nat) :
    Except Err Unit × List Event :=
  seqE (callE (.insertInFile ext.EXECUTE_LIST sid "status" "finished")
        (ext.insert_in_file ext.EXECUTE_LIST sid "status" "finished")) fun _ =>
  callE (.insertInFile ext.SCENARIO_LIST sid "runtime" (runtime_string runtime))
        (ext.insert_in_file ext.SCENARIO_LIST sid "runtime" (runtime_string runtime))

/-- The launcher block of `main`: `get_launcher(args.solver)` selects the
launcher class, which is constructed with the dates, interval, input
directory, thread count and Julia environment, and whose `launch_scenario()`
returns the runtime in seconds. -/
def run_launcher (ext : Ext) (a : Args) : Except Err Nat × List Event :=
  seqE (callE (.getLauncher a.solver) (ext.get_launcher a.solver)) fun _ =>
  callE (.launchScenario a.start_date a.end_date a.interval a.input_dir a.threads a.julia_env)
        (ext.launch_scenario a.start_date a.end_date a.interval a.input_dir a.threads a.julia_env)

/-- `main(args)`: scenario resolution, required-argument validation,
`pkl_to_csv` conversion, the "running" status write (scenario-driven only),
launcher construction and launch, the "finished"/runtime recording
(scenario-driven only), and extraction (if requested). -/
def mainRun (ext : Ext) (a0 : Args) : Except Err Unit × List Event :=
  seqE (resolve_args ext a0) fun a =>
  seqE (ensure_required_args a, []) fun _ =>
  seqE (callE (.pklToCsv a.input_dir) (ext.pkl_to_csv a.input_dir)) fun _ =>
  seqE (if a.scenario_id.truthy then
          callE (.insertInFile ext.EXECUTE_LIST a.scenario_id "status" "running")
                (ext.insert_in_file ext.EXECUTE_LIST a.scenario_id "status" "running")
        else (.ok (), [])) fun _ =>
  seqE (run_launcher ext a) fun runtime =>
  seqE (if a.scenario_id.truthy then record_scenario ext a.scenario_id runtime
        else (.ok (), [])) fun _ =>
  if a.extract_data.truthy then
    callE (.extractScenario a.input_dir a.start_date a.end_date a.scenario_id
            a.output_dir a.keep_matlab)
          (ext.extract_scenario a.input_dir a.start_date a.end_date a.scenario_id
            a.output_dir a.keep_matlab)
  else (.ok (), [])

/-- The `if __name__ == "__main__"` block: run `main`; on any exception print
it and, when the run is scenario-driven, write status "failed" into
`EXECUTE_LIST`.  A `.error` in the first component means an exception escaped
the handler (so the process exits non-zero); `.ok` means a normal exit. -/
def main_entry (ext : Ext) (a : Args) : Except Err Unit × List Event :=
  match mainRun ext a with
  | (.ok _, tr) => (.ok (), tr)
  | (.error e, tr) =>
    if a.scenario_id.truthy then
      ((ext.insert_in_file ext.EXECUTE_LIST a.scenario_id "status" "failed"),
       tr ++ [.printExn e, .insertInFile ext.EXECUTE_LIST a.scenario_id "status" "failed"])
    else
      (.ok (), tr ++ [.printExn e])

/-- Whether an event is a tracking-file write. -/
def Event.isInsert : Event → Bool
  | .insertInFile _ _ _ _ => true
  | _ => false

/-- Whether an event is an extractor invocation. -/
def Event.isExtract : Event → Bool
  | .extractScenario _ _ _ _ _ _ => true
  | _ => false

mutual

/-- Structural equality of Python values. -/
def PyVal.beq : PyVal → PyVal → Bool
  | .none, .none => true
  | .str a, .str b => a == b
  | .int a, .int b => a == b
  | .bool a, .bool b => a == b
  | .list a, .list b => PyVal.beqList a b
  | _, _ => false

/-- Structural equality of lists of Python values. -/
def PyVal.beqList : List PyVal → List PyVal → Bool
  | [], [] => true
  | a :: as, b :: bs => PyVal.beq a b && PyVal.beqList as bs
  | _, _ => false

end

/-- Modelled from the spec: the tracking files (`insert_in_file` from
`pyreisejl.utility.helpers` is not under `src/`) are flat files addressed by
scenario id with column-style updates, last writer wins.  `store_lookup`
reads the value a trace of writes leaves for a given file, scenario id and
column. -/
def store_lookup (tr : List Event) (file : String) (sid : PyVal) (col : String) :
    Option String :=
  (tr.filterMap fun e =>
    match e with
    | .insertInFile f i c v =>
      if f == file && PyVal.beq i sid && c == col then some v else Option.none
    | _ => Option.none).getLast?

/-- A sample registry record. -/
def okScenario : PyVal × PyVal × PyVal × PyVal :=
  (.str "2016-01-01", .str "2016-12-31", .str "24H", .str "/scen/in")

/-- A sample oracle on which every external call succeeds; the launcher
reports a runtime of 3725 seconds (1 hour, 2 minutes, 5 seconds). -/
def okExt : Ext where
  OUTPUT_DIR := .str "/out"
  EXECUTE_LIST := "ExecuteList.csv"
  SCENARIO_LIST := "ScenarioList.csv"
  get_scenario := fun _ => .ok okScenario
  pkl_to_csv := fun _ => .ok ()
  insert_in_file := fun _ _ _ _ => .ok ()
  get_launcher := fun _ => .ok ()
  launch_scenario := fun _ _ _ _ _ _ => .ok 3725
  extract_scenario := fun _ _ _ _ _ _ => .ok ()

/-- Like `okExt`, but the extractor raises. -/
def extractFailExt : Ext :=
  { okExt with extract_scenario := fun _ _ _ _ _ _ => .error (.runtimeErr "extraction failed") }

/-- Like `okExt`, but the converter raises. -/
def pklFailExt : Ext :=
  { okExt with pkl_to_csv := fun _ => .error (.runtimeErr "conversion failed") }

/-- Like `okExt`, but the launch raises. -/
def launchFailExt : Ext :=
  { okExt with launch_scenario := fun _ _ _ _ _ _ => .error (.runtimeErr "solver failed") }

/-- Like `pklFailExt`, but the tracking-file write also raises. -/
def insertFailExt : Ext :=
  { pklFailExt with insert_in_file := fun _ _ _ _ => .error (.runtimeErr "tracking file unavailable") }

/-- A sample non-scenario command line. -/
def cliArgs : Args where
  scenario_id := .none
  start_date := .str "2016-01-01"
  end_date := .str "2016-12-31"
  interval := .str "24H"
  input_dir := .str "/cli/in"
  output_dir := .str "/cli/out"
  solver := .str "gurobi"
  threads := .int 4
  julia_env := .none
  extract_data := .bool false
  keep_matlab := .bool false

/-- A sample scenario-driven command line. -/
def scenArgs : Args :=
  { cliArgs with scenario_id := .str "87" }

/-- A scenario-driven command line that also requests extraction. -/
def scenExtractArgs : Args :=
  { scenArgs with extract_data := .bool true }

/-- A non-scenario command line that requests extraction. -/
def extractArgs : Args :=
  { cliArgs with extract_data := .bool true }

/-- A scenario-driven command line whose CLI-supplied dates, interval, input
and output directories are garbage that resolution must overwrite. -/
def junkArgs : Args :=
  { scenArgs with start_date := .str "junk", end_date := .none, interval := .int 7, input_dir := .str "/garbage", output_dir := .str "/elsewhere" }

/-- A command line whose start date is present but empty. -/
def emptyStartArgs : Args :=
  { cliArgs with start_date := .str "" }

/-- `scenArgs` after scenario resolution against `okExt`. -/
def resolvedScen : Args :=
  { scenArgs with start_date := .str "2016-01-01", end_date := .str "2016-12-31", interval := .str "24H", input_dir := .str "/scen/in", output_dir := .str "/out" }

/-- `scenExtractArgs` after scenario resolution against `okExt`. -/
def resolvedScenExtract : Args :=
  { resolvedScen with extract_data := .bool true }

mutual

/-- `PyVal.beq` is reflexive. -/
theorem PyVal.beq_refl : (v : PyVal) → PyVal.beq v v = true
  | .none => rfl
  | .str s => by simp [PyVal.beq]
  | .int n => by simp [PyVal.beq]
  | .bool b => by simp [PyVal.beq]
  | .list l => by simp [PyVal.beq, PyVal.beqList_refl l]

/-- `PyVal.beqList` is reflexive. -/
theorem PyVal.beqList_refl : (l : List PyVal) → PyVal.beqList l l = true
  | [] => rfl
  | a :: as => by simp [PyVal.beqList, PyVal.beq_refl a, PyVal.beqList_refl as]

end

/-- The trace of the resolution block: the registry call when scenario-driven,
nothing otherwise. -/
theorem resolve_args_trace (ext : Ext) (a : Args) :
    (resolve_args ext a).2 =
      if a.scenario_id.truthy then [Event.getScenario a.scenario_id] else [] := by
  by_cases h : a.scenario_id.truthy = true <;> simp [resolve_args, h]

/-- Resolution does not touch the fields outside the four overwritten ones and
`output_dir`; in particular the scenario id, solver, extraction and retention
flags survive. -/
theorem resolve_args_preserves (ext : Ext) (a0 a : Args)
    (h : (resolve_args ext a0).1 = .ok a) :
    a.scenario_id = a0.scenario_id ∧ a.solver = a0.solver ∧
    a.threads = a0.threads ∧ a.julia_env = a0.julia_env ∧
    a.extract_data = a0.extract_data ∧ a.keep_matlab = a0.keep_matlab := by
  by_cases hs : a0.scenario_id.truthy = true
  · rcases hget : ext.get_scenario a0.scenario_id with e | s <;>
      simp [resolve_args, hs, hget, Except.map] at h
    subst h
    simp [apply_scenario]
  · simp [resolve_args, hs] at h
    subst h
    exact ⟨rfl, rfl, rfl, rfl, rfl, rfl⟩

/-- Events of a sequenced step come either from the first step or, when it
succeeds, from the continuation. -/
theorem seqE_mem {α β : Type} (x : Except Err α × List Event)
    (f : α → Except Err β × List Event) :
    ∀ e ∈ (seqE x f).2, e ∈ x.2 ∨ ∃ a, x.1 = .ok a ∧ e ∈ (f a).2 := by
  rcases x with ⟨r, tr⟩
  cases r with
  | error err => intro e he; exact Or.inl he
  | ok a =>
    intro e he
    simp only [seqE, List.mem_append] at he
    rcases he with h | h
    · exact Or.inl h
    · exact Or.inr ⟨a, rfl, h⟩

/-- The launcher block emits only the factory lookup and the launch itself. -/
theorem run_launcher_events (ext : Ext) (a : Args) :
    ∀ e ∈ (run_launcher ext a).2,
      e = Event.getLauncher a.solver ∨
      e = Event.launchScenario a.start_date a.end_date a.interval a.input_dir
            a.threads a.julia_env := by
  intro e he
  simp only [run_launcher] at he
  rcases seqE_mem _ _ e he with h | ⟨u, hu, h⟩ <;> (simp [callE] at h; simp [h])

/-- The recording block emits only tracking-file writes. -/
theorem record_scenario_events (ext : Ext) (sid : PyVal) (rt : Nat) :
    ∀ e ∈ (record_scenario ext sid rt).2, e.isInsert = true := by
  intro e he
  simp only [record_scenario] at he
  rcases seqE_mem _ _ e he with h | ⟨u, hu, h⟩ <;> simp [callE] at h <;>
    simp [h, Event.isInsert]

/-- Frame conditions of `main`: a tracking-file write can occur only on a
scenario-driven run, and an extractor call only when the extraction flag is
set. -/
theorem mainRun_insert_extract_conditions (ext : Ext) (a0 : Args) :
    ∀ e ∈ (mainRun ext a0).2,
      (e.isInsert = true → a0.scenario_id.truthy = true) ∧
      (e.isExtract = true → a0.extract_data.truthy = true) := by
  intro e he
  simp only [mainRun] at he
  rcases seqE_mem _ _ e he with h | ⟨a, ha, h⟩
  · have htr := resolve_args_trace ext a0
    rw [htr] at h
    by_cases hs : a0.scenario_id.truthy = true
    · rw [if_pos hs] at h
      simp at h
      subst h
      simp [Event.isInsert, Event.isExtract]
    · rw [if_neg hs] at h
      simp at h
  · obtain ⟨hsid, _, _, _, hed, _⟩ := resolve_args_preserves ext a0 a ha
    rcases seqE_mem _ _ e h with h2 | ⟨u1, hu1, h2⟩
    · simp at h2
    rcases seqE_mem _ _ e h2 with h3 | ⟨u2, hu2, h3⟩
    · simp [callE] at h3
      subst h3
      simp [Event.isInsert, Event.isExtract]
    rcases seqE_mem _ _ e h3 with h4 | ⟨u3, hu3, h4⟩
    · by_cases hs : a.scenario_id.truthy = true
      · rw [if_pos hs] at h4
        simp [callE] at h4
        subst h4
        rw [hsid] at hs
        simp [Event.isInsert, Event.isExtract, hs]
      · rw [if_neg hs] at h4
        simp at h4
    rcases seqE_mem _ _ e h4 with h5 | ⟨rt, hrt, h5⟩
    · rcases run_launcher_events ext a e h5 with h | h <;> subst h <;>
        simp [Event.isInsert, Event.isExtract]
    rcases seqE_mem _ _ e h5 with h6 | ⟨u4, hu4, h6⟩
    · by_cases hs : a.scenario_id.truthy = true
      · rw [if_pos hs] at h6
        rw [hsid] at hs
        exact ⟨fun _ => hs, fun hx => absurd hx (by
          have := record_scenario_events ext a.scenario_id rt e h6
          cases e <;> simp [Event.isInsert] at this <;> simp [Event.isExtract])⟩
      · rw [if_neg hs] at h6
        simp at h6
    · by_cases hf : a.extract_data.truthy = true
      · rw [if_pos hf] at h6
        simp [callE] at h6
        subst h6
        rw [hed] at hf
        simp [Event.isInsert, Event.isExtract, hf]
      · rw [if_neg hf] at h6
        simp at h6

/-- Characterisation of a run that reaches extraction: when resolution,
validation, conversion, the "running" write, the launcher lookup, the launch
and the recording all succeed, `main` performs exactly the listed external
calls in order, and the final outcome is the extractor's (or success when
extraction is not requested). -/
theorem mainRun_reaches_extraction (ext : Ext) (a0 a : Args) (tr0 : List Event) (rt : Nat)
    (hres : resolve_args ext a0 = (.ok a, tr0))
    (hens : ensure_required_args a = .ok ())
    (hpkl : ext.pkl_to_csv a.input_dir = .ok ())
    (hrun : a.scenario_id.truthy = true →
      ext.insert_in_file ext.EXECUTE_LIST a.scenario_id "status" "running" = .ok ())
    (hgl : ext.get_launcher a.solver = .ok ())
    (hl : ext.launch_scenario a.start_date a.end_date a.interval a.input_dir
            a.threads a.julia_env = .ok rt)
    (hfin : a.scenario_id.truthy = true →
      ext.insert_in_file ext.EXECUTE_LIST a.scenario_id "status" "finished" = .ok ())
    (hrt : a.scenario_id.truthy = true →
      ext.insert_in_file ext.SCENARIO_LIST a.scenario_id "runtime" (runtime_string rt) = .ok ()) :
    mainRun ext a0 =
      ((if a.extract_data.truthy then
          ext.extract_scenario a.input_dir a.start_date a.end_date a.scenario_id
            a.output_dir a.keep_matlab
        else .ok ()),
       tr0 ++ [.pklToCsv a.input_dir] ++
       (if a.scenario_id.truthy then
          [.insertInFile ext.EXECUTE_LIST a.scenario_id "status" "running"] else []) ++
       [.getLauncher a.solver,
        .launchScenario a.start_date a.end_date a.interval a.input_dir a.threads a.julia_env] ++
       (if a.scenario_id.truthy then
          [.insertInFile ext.EXECUTE_LIST a.scenario_id "status" "finished",
           .insertInFile ext.SCENARIO_LIST a.scenario_id "runtime" (runtime_string rt)]
        else []) ++
       (if a.extract_data.truthy then
          [.extractScenario a.input_dir a.start_date a.end_date a.scenario_id
             a.output_dir a.keep_matlab]
        else [])) := by
  by_cases hs : a.scenario_id.truthy = true <;>
    by_cases he : a.extract_data.truthy = true <;>
      simp [mainRun, seqE, callE, run_launcher, record_scenario, hres, hens, hpkl, hgl, hl,
            hs, he, hrun, hfin, hrt]

/-- C1: for every run where a scenario identifier is supplied, `main`
overwrites `start_date`, `end_date`, `interval` and `input_dir` with the four
components, in that order, of the tuple returned by
`get_scenario(scenario_id)`, and sets `output_dir` to `const.OUTPUT_DIR`,
regardless of any values those fields had from the command line. -/
theorem main_scenario_overwrites_args (ext : Ext) (a : Args)
    (s : PyVal × PyVal × PyVal × PyVal)
    (hscen : a.scenario_id.truthy = true)
    (hget : ext.get_scenario a.scenario_id = .ok s) :
    resolve_args ext a =
      (.ok { a with start_date := s.1, end_date := s.2.1, interval := s.2.2.1, input_dir := s.2.2.2, output_dir := ext.OUTPUT_DIR },
       [.getScenario a.scenario_id]) := by
  simp [resolve_args, hscen, hget, Except.map, apply_scenario]

/-- Witness for C1: resolving a scenario id over garbage command-line values
replaces all four fields with the registry tuple and the output directory
with the configured constant. -/
theorem main_scenario_overwrites_args_witness :
    resolve_args okExt junkArgs =
      (.ok { junkArgs with start_date := .str "2016-01-01", end_date := .str "2016-12-31", interval := .str "24H", input_dir := .str "/scen/in", output_dir := .str "/out" },
       [.getScenario (.str "87")]) :=
  main_scenario_overwrites_args okExt junkArgs okScenario (by decide) rfl

/-- C8: required-argument validation tests Python truthiness, not mere
presence: `None`, the empty string, `0`, `False` and the empty list are all
falsy, and whenever any of the four required fields is falsy,
`_ensure_required_args` raises `WrongNumberOfArguments`. -/
theorem ensure_required_args_tests_truthiness :
    (PyVal.truthy .none = false ∧ PyVal.truthy (.str "") = false ∧
     PyVal.truthy (.int 0) = false ∧ PyVal.truthy (.bool false) = false ∧
     PyVal.truthy (.list []) = false) ∧
    ∀ a : Args,
      (a.start_date.truthy = false ∨ a.end_date.truthy = false ∨
       a.interval.truthy = false ∨ a.input_dir.truthy = false) →
      ensure_required_args a = .error (.wrongNumberOfArguments errRequired) := by
  refine ⟨by decide, fun a h => ?_⟩
  rcases h with h | h | h | h <;> simp [ensure_required_args, h]

/-- Witness for C8: an empty-string interval (present but falsy) is rejected
exactly like a missing one. -/
theorem ensure_required_args_tests_truthiness_witness :
    ensure_required_args { cliArgs with interval := .str "" } =
      .error (.wrongNumberOfArguments errRequired) :=
  ensure_required_args_tests_truthiness.2 { cliArgs with interval := .str "" }
    (Or.inr (Or.inr (Or.inl (by decide))))

/-- Counterexample to C2 as stated: all four required arguments are present
(none of them is `None`), yet `main` raises `WrongNumberOfArguments`, because
the validation tests truthiness and the start date is the empty string. -/
theorem required_args_present_but_rejected :
    emptyStartArgs.start_date ≠ PyVal.none ∧
    emptyStartArgs.end_date ≠ PyVal.none ∧
    emptyStartArgs.interval ≠ PyVal.none ∧
    emptyStartArgs.input_dir ≠ PyVal.none ∧
    mainRun okExt emptyStartArgs = (.error (.wrongNumberOfArguments errRequired), []) := by
  refine ⟨?_, ?_, ?_, ?_, rfl⟩ <;> simp [emptyStartArgs, cliArgs]

/-- C2 (amended): after scenario resolution, `main` raises
`WrongNumberOfArguments` whenever any of `start_date`, `end_date`, `interval`
or `input_dir` is falsy — before invoking conversion, the launcher, or any
tracking-file write (the trace holds at most the registry lookup) — and when
all four are truthy the validation succeeds. -/
theorem main_missing_required_args (ext : Ext) (a0 a : Args) (tr : List Event)
    (hres : resolve_args ext a0 = (.ok a, tr)) :
    ((a.start_date.truthy = false ∨ a.end_date.truthy = false ∨
      a.interval.truthy = false ∨ a.input_dir.truthy = false) →
       mainRun ext a0 = (.error (.wrongNumberOfArguments errRequired), tr) ∧
       ∀ e ∈ tr, e = Event.getScenario a0.scenario_id) ∧
    ((a.start_date.truthy = true ∧ a.end_date.truthy = true ∧
      a.interval.truthy = true ∧ a.input_dir.truthy = true) →
       ensure_required_args a = .ok ()) := by
  constructor
  · intro hmiss
    have hens : ensure_required_args a = .error (.wrongNumberOfArguments errRequired) := by
      rcases hmiss with h | h | h | h <;> simp [ensure_required_args, h]
    constructor
    · simp [mainRun, seqE, hres, hens]
    · intro e he
      have htr := resolve_args_trace ext a0
      rw [hres] at htr
      by_cases hs : a0.scenario_id.truthy = true
      · rw [if_pos hs] at htr
        simp only at htr
        rw [htr] at he
        simpa using he
      · rw [if_neg hs] at htr
        simp only at htr
        rw [htr] at he
        simp at he
  · intro hall
    simp [ensure_required_args, hall.1, hall.2.1, hall.2.2.1, hall.2.2.2]

/-- Witness for C2 (amended): with a missing input directory the run fails
with the required-arguments error and makes no external call. -/
theorem main_missing_required_args_witness :
    mainRun okExt { cliArgs with input_dir := PyVal.none } =
      (.error (.wrongNumberOfArguments errRequired), []) :=
  ((main_missing_required_args okExt { cliArgs with input_dir := PyVal.none }
      { cliArgs with input_dir := PyVal.none } [] rfl).1
    (Or.inr (Or.inr (Or.inr (by decide))))).1

/-- C5: when every external call succeeds, `main` performs exactly this
sequence: scenario resolution (if scenario-driven), conversion of the input
directory, the "running" status write (scenario-driven only, after conversion
and before the launcher), the launcher lookup, the launch, the
"finished"/runtime recording (scenario-driven only), and extraction (if
requested). -/
theorem main_external_call_order (ext : Ext) (a0 a : Args) (tr0 : List Event) (rt : Nat)
    (hres : resolve_args ext a0 = (.ok a, tr0))
    (hens : ensure_required_args a = .ok ())
    (hpkl : ext.pkl_to_csv a.input_dir = .ok ())
    (hrun : a.scenario_id.truthy = true →
      ext.insert_in_file ext.EXECUTE_LIST a.scenario_id "status" "running" = .ok ())
    (hgl : ext.get_launcher a.solver = .ok ())
    (hl : ext.launch_scenario a.start_date a.end_date a.interval a.input_dir
            a.threads a.julia_env = .ok rt)
    (hfin : a.scenario_id.truthy = true →
      ext.insert_in_file ext.EXECUTE_LIST a.scenario_id "status" "finished" = .ok ())
    (hrt : a.scenario_id.truthy = true →
      ext.insert_in_file ext.SCENARIO_LIST a.scenario_id "runtime" (runtime_string rt) = .ok ())
    (hex : a.extract_data.truthy = true →
      ext.extract_scenario a.input_dir a.start_date a.end_date a.scenario_id
        a.output_dir a.keep_matlab = .ok ()) :
    mainRun ext a0 =
      (.ok (),
       (if a0.scenario_id.truthy then [Event.getScenario a0.scenario_id] else []) ++
       [.pklToCsv a.input_dir] ++
       (if a.scenario_id.truthy then
          [.insertInFile ext.EXECUTE_LIST a.scenario_id "status" "running"] else []) ++
       [.getLauncher a.solver,
        .launchScenario a.start_date a.end_date a.interval a.input_dir a.threads a.julia_env] ++
       (if a.scenario_id.truthy then
          [.insertInFile ext.EXECUTE_LIST a.scenario_id "status" "finished",
           .insertInFile ext.SCENARIO_LIST a.scenario_id "runtime" (runtime_string rt)]
        else []) ++
       (if a.extract_data.truthy then
          [.extractScenario a.input_dir a.start_date a.end_date a.scenario_id
             a.output_dir a.keep_matlab]
        else [])) := by
  have htr := resolve_args_trace ext a0
  rw [hres] at htr
  simp only at htr
  have h := mainRun_reaches_extraction ext a0 a tr0 rt hres hens hpkl hrun hgl hl hfin hrt
  rw [h, htr]
  by_cases he : a.extract_data.truthy = true
  · simp [he, hex he]
  · simp [he]

/-- Witness for C5: a fully successful scenario-driven run with extraction
produces exactly the expected call sequence. -/
theorem main_external_call_order_witness :
    mainRun okExt scenExtractArgs =
      (.ok (),
       [Event.getScenario (.str "87"), .pklToCsv (.str "/scen/in"),
        .insertInFile "ExecuteList.csv" (.str "87") "status" "running",
        .getLauncher (.str "gurobi"),
        .launchScenario (.str "2016-01-01") (.str "2016-12-31") (.str "24H") (.str "/scen/in") (.int 4) .none,
        .insertInFile "ExecuteList.csv" (.str "87") "status" "finished",
        .insertInFile "ScenarioList.csv" (.str "87") "runtime" "1:02",
        .extractScenario (.str "/scen/in") (.str "2016-01-01") (.str "2016-12-31") (.str "87") (.str "/out") (.bool false)]) :=
  main_external_call_order okExt scenExtractArgs resolvedScenExtract
    [Event.getScenario (.str "87")] 3725 rfl rfl rfl (fun _ => rfl) rfl rfl
    (fun _ => rfl) (fun _ => rfl) (fun _ => rfl)

/-- C4: any exception raised inside `main` is caught by the top-level
handler, which prints it and, if and only if the run is scenario-driven,
writes status "failed" for the scenario id into the tracking store; the trace
of completed steps is kept intact and nothing else is appended. -/
theorem exception_caught_printed_failed_marked (ext : Ext) (a : Args) (e : Err)
    (tr : List Event)
    (h : mainRun ext a = (.error e, tr)) :
    main_entry ext a =
      ((if a.scenario_id.truthy then
          ext.insert_in_file ext.EXECUTE_LIST a.scenario_id "status" "failed"
        else .ok ()),
       tr ++ [Event.printExn e] ++
       (if a.scenario_id.truthy then
          [Event.insertInFile ext.EXECUTE_LIST a.scenario_id "status" "failed"]
        else [])) := by
  by_cases hs : a.scenario_id.truthy = true <;> simp [main_entry, h, hs]

/-- Witness for C4: when conversion raises during a scenario-driven run, the
handler prints the exception and marks the scenario "failed", keeping the
earlier trace. -/
theorem exception_caught_printed_failed_marked_witness :
    main_entry pklFailExt scenArgs =
      (.ok (),
       [Event.getScenario (.str "87"), .pklToCsv (.str "/scen/in"),
        .printExn (.runtimeErr "conversion failed"),
        .insertInFile "ExecuteList.csv" (.str "87") "status" "failed"]) :=
  exception_caught_printed_failed_marked pklFailExt scenArgs
    (.runtimeErr "conversion failed")
    [Event.getScenario (.str "87"), Event.pklToCsv (.str "/scen/in")] rfl

/-- Counterexample to C3 as stated: on a scenario-driven run whose launcher
returns a runtime (the "finished" status and the runtime are recorded) but
whose extractor then raises, the tracking store afterwards shows status
"failed", not "finished". -/
theorem launcher_ok_but_status_failed :
    (main_entry extractFailExt scenExtractArgs).2.filter Event.isInsert =
      [.insertInFile "ExecuteList.csv" (.str "87") "status" "running",
       .insertInFile "ExecuteList.csv" (.str "87") "status" "finished",
       .insertInFile "ScenarioList.csv" (.str "87") "runtime" "1:02",
       .insertInFile "ExecuteList.csv" (.str "87") "status" "failed"] ∧
    store_lookup (main_entry extractFailExt scenExtractArgs).2
      "ExecuteList.csv" (.str "87") "status" = some "failed" :=
  ⟨rfl, rfl⟩

/-- C3 (amended): on a scenario-driven run in which the launcher returns a
runtime and no later step raises, the tracking store afterwards shows status
"finished" in `EXECUTE_LIST` and, in `SCENARIO_LIST`, a runtime string of
hours and zero-padded two-digit minutes with the seconds discarded. -/
theorem scenario_success_records_finished_and_runtime (ext : Ext) (a0 a : Args) (rt : Nat)
    (hscen : a.scenario_id.truthy = true)
    (hres : resolve_args ext a0 = (.ok a, [Event.getScenario a0.scenario_id]))
    (hens : ensure_required_args a = .ok ())
    (hpkl : ext.pkl_to_csv a.input_dir = .ok ())
    (hrun : ext.insert_in_file ext.EXECUTE_LIST a.scenario_id "status" "running" = .ok ())
    (hgl : ext.get_launcher a.solver = .ok ())
    (hl : ext.launch_scenario a.start_date a.end_date a.interval a.input_dir
            a.threads a.julia_env = .ok rt)
    (hfin : ext.insert_in_file ext.EXECUTE_LIST a.scenario_id "status" "finished" = .ok ())
    (hrt : ext.insert_in_file ext.SCENARIO_LIST a.scenario_id "runtime" (runtime_string rt) = .ok ())
    (hex : a.extract_data.truthy = true →
      ext.extract_scenario a.input_dir a.start_date a.end_date a.scenario_id
        a.output_dir a.keep_matlab = .ok ()) :
    store_lookup (main_entry ext a0).2 ext.EXECUTE_LIST a.scenario_id "status" =
      some "finished" ∧
    store_lookup (main_entry ext a0).2 ext.SCENARIO_LIST a.scenario_id "runtime" =
      some (runtime_string rt) ∧
    runtime_string rt =
      toString (rt / 3600) ++ ":" ++
        (if rt % 3600 / 60 < 10 then "0" ++ toString (rt % 3600 / 60)
         else toString (rt % 3600 / 60)) := by
  have h := mainRun_reaches_extraction ext a0 a [Event.getScenario a0.scenario_id] rt hres
    hens hpkl (fun _ => hrun) hgl hl (fun _ => hfin) (fun _ => hrt)
  by_cases he : a.extract_data.truthy = true
  · rw [if_pos he, hex he, if_pos he] at h
    refine ⟨?_, ?_, rfl⟩ <;>
      simp [main_entry, h, hscen, store_lookup, PyVal.beq_refl]
  · rw [if_neg he, if_neg he] at h
    refine ⟨?_, ?_, rfl⟩ <;>
      simp [main_entry, h, hscen, store_lookup, PyVal.beq_refl]

/-- Witness for C3 (amended): a fully successful scenario-driven run with a
3725-second runtime leaves status "finished" and runtime "1:02". -/
theorem scenario_success_records_finished_and_runtime_witness :
    store_lookup (main_entry okExt scenArgs).2 "ExecuteList.csv" (.str "87") "status" =
      some "finished" ∧
    store_lookup (main_entry okExt scenArgs).2 "ScenarioList.csv" (.str "87") "runtime" =
      some "1:02" ∧
    runtime_string 3725 = "1:02" :=
  scenario_success_records_finished_and_runtime okExt scenArgs resolvedScen 3725
    (by decide) rfl rfl rfl rfl rfl rfl rfl rfl (fun _ => rfl)

/-- The frame conditions extend to the whole process: the top-level handler
adds only the printed exception and (scenario-driven only) the "failed"
write. -/
theorem main_entry_insert_extract_conditions (ext : Ext) (a0 : Args) :
    ∀ e ∈ (main_entry ext a0).2,
      (e.isInsert = true → a0.scenario_id.truthy = true) ∧
      (e.isExtract = true → a0.extract_data.truthy = true) := by
  intro e he
  rcases hm : mainRun ext a0 with ⟨r, tr⟩
  cases r with
  | ok u =>
    simp only [main_entry, hm] at he
    exact mainRun_insert_extract_conditions ext a0 e (by rw [hm]; exact he)
  | error err =>
    by_cases hs : a0.scenario_id.truthy = true
    · simp only [main_entry, hm, if_pos hs, List.mem_append] at he
      rcases he with h | h
      · exact mainRun_insert_extract_conditions ext a0 e (by rw [hm]; exact h)
      · simp at h
        rcases h with h | h <;> subst h <;> simp [Event.isInsert, Event.isExtract, hs]
    · simp only [main_entry, hm, if_neg hs, List.mem_append] at he
      rcases he with h | h
      · exact mainRun_insert_extract_conditions ext a0 e (by rw [hm]; exact h)
      · simp at h
        subst h
        simp [Event.isInsert, Event.isExtract]

/-- C9: a run without a scenario identifier never writes a tracking file:
neither on the success path nor on the failure path does any
`insert_in_file` call occur. -/
theorem non_scenario_run_writes_no_tracking (ext : Ext) (a : Args)
    (hs : a.scenario_id.truthy = false) :
    (main_entry ext a).2.filter Event.isInsert = [] := by
  rw [List.filter_eq_nil_iff]
  intro e he
  have h := (main_entry_insert_extract_conditions ext a e he).1
  simp [hs] at h
  simp [h]

/-- Witness for C9: a non-scenario run (even one that fails in conversion)
makes no tracking-file write. -/
theorem non_scenario_run_writes_no_tracking_witness :
    (main_entry pklFailExt extractArgs).2.filter Event.isInsert = [] :=
  non_scenario_run_writes_no_tracking pklFailExt extractArgs rfl

/-- Counterexample to C6 as stated: the extraction flag is set, yet the
extractor is never invoked, because conversion raised earlier; the run's full
trace holds no `extract_scenario` call. -/
theorem extraction_flag_set_but_extractor_not_called :
    PyVal.truthy extractArgs.extract_data = true ∧
    (main_entry pklFailExt extractArgs).2 =
      [Event.pklToCsv (.str "/cli/in"), .printExn (.runtimeErr "conversion failed")] ∧
    (main_entry pklFailExt extractArgs).2.filter Event.isExtract = [] :=
  ⟨rfl, rfl, rfl⟩

/-- C6 (amended): the extractor is never invoked when the extraction flag is
unset; and on a run in which every step before extraction succeeds it is
invoked if and only if the flag is set, receiving the input directory, the
resolved start and end dates, the scenario id, the output directory and the
keep-MATLAB flag. -/
theorem extraction_iff_flag (ext : Ext) (a0 a : Args) (tr0 : List Event) (rt : Nat)
    (hres : resolve_args ext a0 = (.ok a, tr0))
    (hens : ensure_required_args a = .ok ())
    (hpkl : ext.pkl_to_csv a.input_dir = .ok ())
    (hrun : a.scenario_id.truthy = true →
      ext.insert_in_file ext.EXECUTE_LIST a.scenario_id "status" "running" = .ok ())
    (hgl : ext.get_launcher a.solver = .ok ())
    (hl : ext.launch_scenario a.start_date a.end_date a.interval a.input_dir
            a.threads a.julia_env = .ok rt)
    (hfin : a.scenario_id.truthy = true →
      ext.insert_in_file ext.EXECUTE_LIST a.scenario_id "status" "finished" = .ok ())
    (hrt : a.scenario_id.truthy = true →
      ext.insert_in_file ext.SCENARIO_LIST a.scenario_id "runtime" (runtime_string rt) = .ok ()) :
    (mainRun ext a0).2.filter Event.isExtract =
      (if a.extract_data.truthy then
         [Event.extractScenario a.input_dir a.start_date a.end_date a.scenario_id
            a.output_dir a.keep_matlab]
       else []) ∧
    ∀ (ext2 : Ext) (b : Args), b.extract_data.truthy = false →
      (main_entry ext2 b).2.filter Event.isExtract = [] := by
  constructor
  · have h := mainRun_reaches_extraction ext a0 a tr0 rt hres hens hpkl hrun hgl hl hfin hrt
    have htr := resolve_args_trace ext a0
    rw [hres] at htr
    simp only at htr
    rw [h, htr]
    by_cases hs : a0.scenario_id.truthy = true <;>
      by_cases he : a.extract_data.truthy = true <;>
        by_cases hs2 : a.scenario_id.truthy = true <;>
          simp [hs, he, hs2, Event.isExtract, Event.isInsert]
  · intro ext2 b hflag
    rw [List.filter_eq_nil_iff]
    intro e he
    have h := (main_entry_insert_extract_conditions ext2 b e he).2
    simp [hflag] at h
    simp [h]

/-- Witness for C6 (amended): on a fully successful extraction run the
extractor is called exactly once with the resolved arguments. -/
theorem extraction_iff_flag_witness :
    (mainRun okExt scenExtractArgs).2.filter Event.isExtract =
      [Event.extractScenario (.str "/scen/in") (.str "2016-01-01") (.str "2016-12-31")
         (.str "87") (.str "/out") (.bool false)] :=
  (extraction_iff_flag okExt scenExtractArgs resolvedScenExtract
      [Event.getScenario (.str "87")] 3725 rfl rfl rfl (fun _ => rfl) rfl rfl
      (fun _ => rfl) (fun _ => rfl)).1

/-- C7: the process exit status is never explicitly set: the run ends
abnormally only when an exception escapes the handler itself, which can
happen only through the "failed" status write of a scenario-driven run; every
exception of class `Exception` raised inside `main` is otherwise handled and
the process exits normally (code zero). -/
theorem exit_nonzero_only_from_handler_write (ext : Ext) (a : Args) :
    (∀ e, (main_entry ext a).1 = .error e →
       a.scenario_id.truthy = true ∧
       ext.insert_in_file ext.EXECUTE_LIST a.scenario_id "status" "failed" = .error e ∧
       ∃ er tr, mainRun ext a = (.error er, tr)) ∧
    (∀ er tr, mainRun ext a = (.error er, tr) →
       (a.scenario_id.truthy = false ∨
        ext.insert_in_file ext.EXECUTE_LIST a.scenario_id "status" "failed" = .ok ()) →
       (main_entry ext a).1 = .ok ()) := by
  constructor
  · intro e he
    rcases hm : mainRun ext a with ⟨r, tr⟩
    cases r with
    | ok u => simp [main_entry, hm] at he
    | error er =>
      by_cases hs : a.scenario_id.truthy = true
      · simp only [main_entry, hm, if_pos hs] at he
        exact ⟨hs, he, er, tr, rfl⟩
      · simp [main_entry, hm, if_neg hs] at he
  · intro er tr hm hok
    by_cases hs : a.scenario_id.truthy = true
    · rcases hok with h | h
      · rw [hs] at h
        exact absurd h (by simp)
      · simp [main_entry, hm, hs, h]
    · simp [main_entry, hm, hs]

/-- Witness for C7: with a failing converter and a failing tracking file, the
handler's own "failed" write raises and the exception escapes — the only
non-zero exit path. -/
theorem exit_nonzero_only_from_handler_write_witness :
    PyVal.truthy scenArgs.scenario_id = true ∧
    insertFailExt.insert_in_file insertFailExt.EXECUTE_LIST scenArgs.scenario_id
      "status" "failed" = .error (.runtimeErr "tracking file unavailable") ∧
    ∃ er tr, mainRun insertFailExt scenArgs = (.error er, tr) :=
  (exit_nonzero_only_from_handler_write insertFailExt scenArgs).1
    (.runtimeErr "tracking file unavailable") rfl

/-- C10: when extraction is requested on a scenario-driven run and the
extractor raises after the simulation succeeded, the "finished" status
already in `EXECUTE_LIST` is overwritten with "failed" by the top-level
handler while the recorded runtime remains in `SCENARIO_LIST`; the final
tracking state is "failed" with a valid runtime, and the handled run exits
normally. -/
theorem extract_failure_overwrites_finished_keeps_runtime (ext : Ext) (a0 a : Args)
    (rt : Nat) (e : Err)
    (hscen : a.scenario_id.truthy = true)
    (hsid : a.scenario_id = a0.scenario_id)
    (hres : resolve_args ext a0 = (.ok a, [Event.getScenario a0.scenario_id]))
    (hens : ensure_required_args a = .ok ())
    (hpkl : ext.pkl_to_csv a.input_dir = .ok ())
    (hrun : ext.insert_in_file ext.EXECUTE_LIST a.scenario_id "status" "running" = .ok ())
    (hgl : ext.get_launcher a.solver = .ok ())
    (hl : ext.launch_scenario a.start_date a.end_date a.interval a.input_dir
            a.threads a.julia_env = .ok rt)
    (hfin : ext.insert_in_file ext.EXECUTE_LIST a.scenario_id "status" "finished" = .ok ())
    (hrt : ext.insert_in_file ext.SCENARIO_LIST a.scenario_id "runtime" (runtime_string rt) = .ok ())
    (hflag : a.extract_data.truthy = true)
    (hex : ext.extract_scenario a.input_dir a.start_date a.end_date a.scenario_id
             a.output_dir a.keep_matlab = .error e)
    (hhandler : ext.insert_in_file ext.EXECUTE_LIST a0.scenario_id "status" "failed" = .ok ()) :
    Event.insertInFile ext.EXECUTE_LIST a.scenario_id "status" "finished" ∈
      (main_entry ext a0).2 ∧
    store_lookup (main_entry ext a0).2 ext.EXECUTE_LIST a.scenario_id "status" =
      some "failed" ∧
    store_lookup (main_entry ext a0).2 ext.SCENARIO_LIST a.scenario_id "runtime" =
      some (runtime_string rt) ∧
    (main_entry ext a0).1 = .ok () := by
  have h := mainRun_reaches_extraction ext a0 a [Event.getScenario a0.scenario_id] rt hres
    hens hpkl (fun _ => hrun) hgl hl (fun _ => hfin) (fun _ => hrt)
  rw [if_pos hflag, hex, if_pos hflag] at h
  have hs0 : a0.scenario_id.truthy = true := by rw [← hsid]; exact hscen
  rw [← hsid] at hhandler
  refine ⟨?_, ?_, ?_, ?_⟩ <;>
    simp [main_entry, h, hs0, hscen, ← hsid, store_lookup, PyVal.beq_refl, hhandler]

/-- Witness for C10: the extractor raising after a successful simulation
leaves status "failed" and runtime "1:02", with the "finished" write still in
the trace and a normal exit. -/
theorem extract_failure_overwrites_finished_keeps_runtime_witness :
    Event.insertInFile "ExecuteList.csv" (.str "87") "status" "finished" ∈
      (main_entry extractFailExt scenExtractArgs).2 ∧
    store_lookup (main_entry extractFailExt scenExtractArgs).2
      "ExecuteList.csv" (.str "87") "status" = some "failed" ∧
    store_lookup (main_entry extractFailExt scenExtractArgs).2
      "ScenarioList.csv" (.str "87") "runtime" = some "1:02" ∧
    (main_entry extractFailExt scenExtractArgs).1 = .ok () :=
  extract_failure_overwrites_finished_keeps_runtime extractFailExt scenExtractArgs
    resolvedScenExtract 3725 (.runtimeErr "extraction failed") (by decide) rfl rfl rfl
    rfl rfl rfl rfl rfl rfl rfl rfl rfl

end Call
